import Mathlib

/-!
Verification of the runtime core of BikeDashboardPlus
(`raspberrypi/bike_mode.py`): a shallow embedding of the serial-link
controller loop (`main_ser_connect`), the tracking state machine, the
track logger (`tracker`, `new_track_file`), and the speed-unit
conversion (`conv_unit`), together with theorems about the protocol and
tracking behaviour of one loop iteration and of sequences of iterations.

Modelling conventions:
* Python numbers are embedded as `ℚ` (floats) and `ℤ`/`ℕ` (ints);
  Python `int()` truncation toward zero is `pyInt`.
* Python exceptions are an `Except PyErr` result of the step functions;
  an uncaught exception terminates the loop, so state mutated before a
  raise is unobservable and is dropped.  The recorded file effects of
  an aborting iteration are dropped with the rest of its state (the
  source may durably append one log line before a later consultation
  raises, e.g. on a `["REQ"]` inbound line; no theorem below concerns
  the log of an aborted iteration).
* The JSON texts on the wire are abstracted to their parse outcome
  (`LineIn`): the exact empty line `b"\r\n"`, a line `json.loads`
  rejects, a parsed object with optional `BUTTON1`/`BUTTON2`/`REQ`
  keys, or a parsed non-object value characterised by which of the
  loop's three key consultations raise a `TypeError` (see `LineIn`).
* A TPV report published by the GPS thread (`curdata`) is a `Fix`; a
  missing report or a missing `mode` key is `none`.  A fix with
  quality `mode ≥ 2` is modelled as carrying all fields the loop
  consumes, and the timezone-localised fields (`_conv_tmz`,
  `strftime`) are carried pre-computed on the fix (`month`, `day`,
  `hour`, `minute`, and `localName` for the derived track-file name),
  since the loop only moves them around.
* The configuration file `cfg.json` is an association list from key
  strings to integer values (only `UNT`'s integer value is consumed by
  the modelled core; the other values are opaque payload data).
* File-system effects are recorded in the state: `files` is the list
  of names passed to `new_track_file`, `log` the list of
  `(file name, line)` pairs appended by `tracker`.
-/

namespace BikeMode

/-- Python exceptions the modelled code can raise:
`json.loads` failure, dict access with a missing key, a failed
`assert`, list indexing out of range, and the `TypeError` raised when
a key consultation is applied to a JSON non-object value (membership
on a number/boolean/null, or string-indexing a list/string). -/
inductive PyErr
  | jsonError
  | keyError
  | assertError
  | indexError
  | typeError
  deriving Repr, DecidableEq

/-- Python `int(x)` on a number: truncation toward zero. -/
def pyInt (q : ℚ) : ℤ := if 0 ≤ q then ⌊q⌋ else ⌈q⌉

/-- The function `conv_unit(val, unit)` from bike_mode.py: speed in m/s converted to
the display unit (0 = mph, 1 = km/h, 2 = m/s) and truncated with
`int()`.  The guarding `assert(unit >= 0 and unit < 3)` is modelled by
returning `none` (an `AssertionError`) outside the range. -/
def conv_unit (val : ℚ) (unit : ℤ) : Option ℤ :=
  if 0 ≤ unit ∧ unit < 3 then
    some (if unit = 0 then pyInt ((val / 1) * 2.237)
          else if unit = 1 then pyInt ((val / 1) * 3.6)
          else pyInt val)
  else none

/-- Modelled from the spec: the conversion factor per unit claimed in
§8 of the spec (factor(MPH) = 2.237, factor(KMH) = 3.6,
factor(MPS) = 1), used to compare `conv_unit` against the spec's
`floor(s * factor(u))` formula. -/
def factor (unit : ℤ) : ℚ :=
  if unit = 0 then 2.237 else if unit = 1 then 3.6 else 1

/-- A parsed inbound JSON object: `{"BUTTON1": b, "BUTTON2": b,
"REQ": 0|1}`, each key optional (`none` = absent). -/
structure Frame where
  button1 : Option Bool
  button2 : Option Bool
  req : Option ℤ
  deriving Repr, DecidableEq

/-- One raw line available on the serial port, abstracted to its parse
outcome:
* `crlf` — the exact `b"\r\n"` line that the code skips;
* `malformed` — any line `json.loads` raises on (this includes other
  empty or truncated lines);
* `frame f` — a line parsing to a JSON object, with its three
  relevant keys;
* `nonObj r1 r2 r3` — a line parsing to a JSON non-object value
  (array, string, number, boolean, null).  The loop only ever
  consults such a value through the three guarded key lookups
  (`"BUTTON1" in rcv and rcv["BUTTON1"]`, same for `BUTTON2`, and
  `"REQ" in rcv and rcv["REQ"] == ...`); each consultation either
  behaves as a false membership test, or raises a `TypeError`
  (for a number/boolean/null the `in` itself raises — all three
  flags true; for an array or string a positive membership test is
  followed by string indexing, which raises).  `rK` records whether
  the K-th consultation raises; e.g. `b"[]"` or `b"\"abc\""` is
  `nonObj false false false`, `b"5"` is `nonObj true true true`,
  `b"[\"REQ\"]"` is `nonObj false false true`. -/
inductive LineIn
  | crlf
  | malformed
  | frame (f : Frame)
  | nonObj (r1 r2 r3 : Bool)
  deriving Repr, DecidableEq

/-- The value `json.loads` leaves in `rcv` for one cycle: a JSON
object with its three relevant keys, or a non-object value,
characterised as in `LineIn.nonObj`. -/
inductive Rcv
  | obj (f : Frame)
  | nonObj (r1 r2 r3 : Bool)
  deriving Repr, DecidableEq

/-- The latest TPV report held in `curdata`.  `localName` is the
timezone-localised `"%Y-%m-%d_%H:%M:%S_track_path"` name that
`new_track_file` derives from the report's `time` field. -/
structure Fix where
  mode : ℤ
  lat : ℚ
  lon : ℚ
  speed : ℚ
  month : ℤ
  day : ℤ
  hour : ℤ
  minute : ℤ
  localName : String
  deriving Repr, DecidableEq

/-- The `datetime` slot of the display dict: the 1970-01-01 00:00:00
default, or the localised fix time. -/
inductive DispDT
  | epoch
  | localized (month day hour minute : ℤ)
  deriving Repr, DecidableEq

/-- The `mode` slot of the display dict: the default glyph `'D'`, or
the integer fix-quality mode copied from the report. -/
inductive DispMode
  | glyphD
  | num (m : ℤ)
  deriving Repr, DecidableEq

/-- The display dict published to the OLED thread via `disp_data_g`. -/
structure Disp where
  speed : ℚ
  unit : ℤ
  dt : DispDT
  mode : DispMode
  track : String
  deriving Repr, DecidableEq

/-- The display dict as freshly constructed at the top of each loop
iteration (lines 279–285 of bike_mode.py). -/
def defaultDisp (unt : ℤ) : Disp :=
  { speed := 0, unit := unt, dt := .epoch, mode := .glyphD, track := "" }

/-- The configuration object: keys to (integer-modelled) values. -/
abbrev CfgMap := List (String × ℤ)

/-- The object `cfg_ard`: the configuration sent to the Arduino, i.e. `cfg.json`
with the `"24H"` and `"TMZ"` entries deleted (line 47). -/
def cfgArd (cfg : CfgMap) : CfgMap :=
  cfg.filter (fun kv => !(kv.1 == "24H" || kv.1 == "TMZ"))

/-- Dict access `cfg_ard[k]`. -/
def lookupCfg (cfg : CfgMap) (k : String) : Option ℤ :=
  List.lookup k cfg

/-- The mutable state of the controller loop surviving across
iterations, plus the recorded file-system effects. -/
structure St where
  tracking : ℕ
  wastracking : Bool
  prevbstate1 : Bool
  prevbstate2 : Bool
  prevTimeEpoch : ℤ
  fileName : String
  msg : String
  sendGPS : List ℚ
  sendLED0 : ℕ
  sendLED1 : ℕ
  sendB1RCV : Bool
  sendB2RCV : Bool
  files : List String
  log : List (String × String)
  deriving Repr, DecidableEq

/-- The module-level initial values (lines 51–68). -/
def initSt : St :=
  { tracking := 0
    wastracking := false
    prevbstate1 := false
    prevbstate2 := false
    prevTimeEpoch := 0
    fileName := "ERROR"
    msg := "ERROR"
    sendGPS := List.replicate 6 (-1 : ℚ)
    sendLED0 := 0
    sendLED1 := 0
    sendB1RCV := false
    sendB2RCV := false
    files := []
    log := [] }

/-- The per-iteration environment: the available serial line (if any),
the current `curdata` fix, `math.floor(time.time())`, and the speed
currently shown on the OLED (`oled_speed`, written by the display
thread). -/
structure CycleIn where
  line : Option LineIn
  fix : Option Fix
  now : ℤ
  oled : ℚ
  deriving Repr, DecidableEq

/-- Convenience constructor for cycle environments. -/
def mkIn (l : Option LineIn) (fx : Option Fix) (now : ℤ) (oled : ℚ) : CycleIn :=
  { line := l, fix := fx, now := now, oled := oled }

/-- The outbound payload of one iteration: nothing (bare newline), the
configuration object (on REQ=0), or the telemetry object
`{"GPS", "LED", "B1RCV", "B2RCV"}` (on REQ=1). -/
inductive Out
  | noPayload
  | config (payload : CfgMap)
  | telemetry (gps : List ℚ) (led0 led1 : ℕ) (b1 b2 : Bool)
  deriving Repr, DecidableEq

/-- The observable result of one successful iteration: the new state,
the outbound payload, and the display dict published to the OLED. -/
structure CycleOut where
  st : St
  out : Out
  disp : Disp
  deriving Repr, DecidableEq

/-- The constant `INTERVAL = 2`: the plotting interval in seconds (line 72). -/
def INTERVAL : ℤ := 2

/-- Python `str.strip()` (with no argument): remove leading and
trailing whitespace, here implemented on the underlying character
list. -/
def pyStrip (s : String) : String :=
  ⟨((s.data.dropWhile Char.isWhitespace).reverse.dropWhile
      Char.isWhitespace).reverse⟩

/-- Python `str.upper()` on the underlying character list. -/
def pyUpper (s : String) : String :=
  ⟨s.data.map Char.toUpper⟩

/-- The guard `msg.strip().upper() == "PAUSED"` (line 152). -/
def msgIsPaused (m : String) : Bool :=
  pyUpper (pyStrip m) == "PAUSED"

/-- The coordinate line `str(lat) + "," + str(lng) + "\n"` written by
`tracker` (line 160); the rational's rendering stands in for Python's
float rendering, which likewise never reads back as `"PAUSED"`. -/
def coordLine (lat lng : ℚ) : String :=
  toString lat ++ "," ++ toString lng ++ "\n"

/-- The function `tracker(lat, lng, tm)` (lines 147–165): appends a coordinate line
or the `"PAUSED\n"` sentinel to the current track file, at most once
per `INTERVAL` seconds, suppressing repeated sentinels via `msg`. -/
def tracker (now : ℤ) (lat lng : ℚ) (s : St) : St :=
  if s.tracking = 0 ∨ (s.tracking = 1 ∧ msgIsPaused s.msg) ∨
      now - s.prevTimeEpoch < INTERVAL then
    s
  else
    let s1 := { s with prevTimeEpoch := now }
    let m := if s1.tracking = 1 then "PAUSED\n" else coordLine lat lng
    { s1 with msg := m, log := s1.log ++ [(s1.fileName, m)] }

/-- The track glyph list `t = ['', 'P', 'T']` indexed by `tracking`
(line 321/325); out-of-range indexing is an `IndexError`. -/
def trackGlyph (n : ℕ) : Option String :=
  [ "", "P", "T" ].get? n

/-- Reading and parsing the available serial line (lines 288–292):
no line or the exact `b"\r\n"` leaves `rcv = {}`; any other line that
is not a JSON object raises in `json.loads`. -/
def parseLine : Option LineIn → Except PyErr Rcv
  | none => .ok (.obj { button1 := none, button2 := none, req := none })
  | some .crlf => .ok (.obj { button1 := none, button2 := none, req := none })
  | some .malformed => .error .jsonError
  | some (.frame f) => .ok (.obj f)
  | some (.nonObj r1 r2 r3) => .ok (.nonObj r1 r2 r3)

/-- The invalid-fix branch of lines 295–299: sentinel GPS array, red
LED on, tracking forced to stopped. -/
def stInvalid (s : St) : St :=
  { s with sendGPS := List.replicate 6 (-1 : ℚ), sendLED1 := 2, tracking := 0 }

/-- The test `"mode" not in curdata or curdata["mode"] < 2`
(line 295). -/
def fixInvalid : Option Fix → Bool
  | none => true
  | some g => decide (g.mode < 2)

/-- Lines 303–307 of the valid-fix branch: clear the fault LED, and
resume tracking (`tracking = 2`) when it was interrupted by a GPS
outage (`tracking == 0 and wastracking`). -/
def fixValidBase (s : St) : St :=
  { s with sendLED1 := 0,
           tracking := if s.tracking = 0 ∧ s.wastracking = true then 2
                       else s.tracking }

/-- Lines 294–325: consume the latest fix.  Invalid fix → defaults;
valid fix → clear the fault LED, carry over interrupted tracking
(`wastracking`), build the outbound GPS array (speed is the
OLED-synchronised `oled_speed` put through `conv_unit`), and fill the
display dict. -/
def fixStep (unt : ℤ) (fx : Option Fix) (oled : ℚ) (s : St) :
    Except PyErr (St × Disp) :=
  match fx with
  | none => .ok (stInvalid s, defaultDisp unt)
  | some g =>
    if g.mode < 2 then .ok (stInvalid s, defaultDisp unt)
    else
      match conv_unit oled unt with
      | none => .error .assertError
      | some sp =>
        match trackGlyph (fixValidBase s).tracking with
        | none => .error .indexError
        | some gl =>
          .ok ({ fixValidBase s with
                  sendGPS := [g.lat, g.lon, (sp : ℚ), (g.month : ℚ),
                              (g.day : ℚ), (g.hour : ℚ), (g.minute : ℚ)] },
               { speed := g.speed, unit := unt,
                 dt := .localized g.month g.day g.hour g.minute,
                 mode := .num g.mode, track := gl })

/-- Lines 330–342: the Track button.  On a rising edge: stop if paused
or tracking (clearing `wastracking`); otherwise start tracking, and
only when the fault LED is off also set `wastracking` and derive a new
track file from `curdata["time"]` (a `KeyError` if `curdata` were
empty, which cannot happen when the fault LED is off). -/
def button1Step (rcv : Frame) (fx : Option Fix) (s : St) : Except PyErr St :=
  if rcv.button1 = some true ∧ s.prevbstate1 = false then
    if s.tracking = 1 ∨ s.tracking = 2 then
      .ok { s with wastracking := false, tracking := 0 }
    else
      if s.sendLED1 = 0 then
        match fx with
        | none => .error .keyError
        | some g =>
          .ok { s with tracking := 2, wastracking := true,
                       fileName := g.localName,
                       files := s.files ++ [g.localName] }
      else .ok { s with tracking := 2 }
  else .ok s

/-- Lines 345–347: the Pause/Resume button toggles states 1 and 2 on a
rising edge, only while not stopped. -/
def button2Step (rcv : Frame) (s : St) : St :=
  if rcv.button2 = some true ∧ s.prevbstate2 = false ∧ s.tracking ≠ 0 then
    { s with tracking := s.tracking % 2 + 1 }
  else s

/-- Lines 357–360: run `tracker` only when the fault LED is off, i.e.
when there is GPS data this cycle. -/
def trackerStep (now : ℤ) (fx : Option Fix) (s : St) : Except PyErr St :=
  if s.sendLED1 = 0 then
    match fx with
    | none => .error .keyError
    | some g => .ok (tracker now g.lat g.lon s)
  else .ok s

/-- Lines 363–378: build the outbound payload.  REQ=0 → the
configuration; REQ=1 → set the button acks from the raw inbound values
(an unconditional dict access: a `KeyError` when a button key is
absent) and send the telemetry object; otherwise no payload. -/
def reqStep (cfg : CfgMap) (rcv : Frame) (s : St) : Except PyErr (St × Out) :=
  if rcv.req = some 0 then
    .ok (s, .config (cfgArd cfg))
  else if rcv.req = some 1 then
    match rcv.button1, rcv.button2 with
    | some b1, some b2 =>
      .ok ({ s with sendB1RCV := b1, sendB2RCV := b2 },
           .telemetry s.sendGPS s.sendLED0 s.sendLED1 b1 b2)
    | _, _ => .error .keyError
  else
    .ok (s, .noPayload)

/-- The Track-button check (line 330) on whatever `json.loads` left in
`rcv`: on a JSON object this is `button1Step`; on a non-object the
consultation either behaves as a false membership test (no edge) or
raises a `TypeError`. -/
def button1StepR (rcv : Rcv) (fx : Option Fix) (s : St) : Except PyErr St :=
  match rcv with
  | .obj f => button1Step f fx s
  | .nonObj r1 _ _ => if r1 = true then .error .typeError else .ok s

/-- The Pause/Resume-button check (line 345) on whatever `json.loads`
left in `rcv`: on a JSON object this is `button2Step`; on a non-object
the consultation either behaves as a false membership test or raises a
`TypeError`. -/
def button2StepR (rcv : Rcv) (s : St) : Except PyErr St :=
  match rcv with
  | .obj f => .ok (button2Step f s)
  | .nonObj _ r2 _ => if r2 = true then .error .typeError else .ok s

/-- The REQ dispatch (lines 363–378) on whatever `json.loads` left in
`rcv`: on a JSON object this is `reqStep`; on a non-object the REQ
consultation either behaves as a false membership test (no payload,
bare newline) or raises a `TypeError`. -/
def reqStepR (cfg : CfgMap) (rcv : Rcv) (s : St) : Except PyErr (St × Out) :=
  match rcv with
  | .obj f => reqStep cfg f s
  | .nonObj _ _ r3 => if r3 = true then .error .typeError
                      else .ok (s, .noPayload)

/-- Line 353: `send["LED"][0] = tracking`. -/
def ledStep (s : St) : St :=
  { s with sendLED0 := s.tracking }

/-- Lines 393–394: `prevbstate1 = send["B1RCV"]`,
`prevbstate2 = send["B2RCV"]` — the previous button state for the next
edge computation is taken from the acknowledgement fields, not from
the raw inbound values. -/
def persistPrev (s : St) : St :=
  { s with prevbstate1 := s.sendB1RCV, prevbstate2 := s.sendB2RCV }

/-- One iteration of the `while (ser.is_open)` loop of
`main_ser_connect` (lines 277–398), in source order: build the default
display dict (reading `cfg_ard["UNT"]`), read and parse the inbound
line, consume the fix, process the two buttons, set the green LED,
drive the tracker, build the outbound payload, publish the display
dict, persist `B1RCV`/`B2RCV` as the previous button states, and check
the closing `assert(tracking < 3 and tracking >= 0)` (`persistPrev`
does not change `tracking`, so checking `s6.tracking` is the same
check). -/
def runCycle (cfg : CfgMap) (i : CycleIn) (s : St) : Except PyErr CycleOut :=
  match lookupCfg cfg "UNT" with
  | none => .error .keyError
  | some unt =>
    match parseLine i.line with
    | .error e => .error e
    | .ok rcv =>
      match fixStep unt i.fix i.oled s with
      | .error e => .error e
      | .ok (s1, disp) =>
        match button1StepR rcv i.fix s1 with
        | .error e => .error e
        | .ok s2 =>
          match button2StepR rcv s2 with
          | .error e => .error e
          | .ok s3 =>
            match trackerStep i.now i.fix (ledStep s3) with
            | .error e => .error e
            | .ok s5 =>
              match reqStepR cfg rcv s5 with
              | .error e => .error e
              | .ok (s6, out) =>
                if s6.tracking < 3 then
                  .ok { st := persistPrev s6, out := out, disp := disp }
                else .error .assertError

/-- The state after one iteration, `none` when the iteration raised. -/
def afterCycle (cfg : CfgMap) (i : CycleIn) (s : St) : Option St :=
  (runCycle cfg i s).toOption.map CycleOut.st

/-- The state after a sequence of iterations. -/
def runAll (cfg : CfgMap) (is : List CycleIn) (s : St) : Option St :=
  match is with
  | [] => some s
  | i :: rest =>
    match afterCycle cfg i s with
    | none => none
    | some t => runAll cfg rest t

/-- How many `"PAUSED\n"` sentinel lines a log holds. -/
def countPaused (log : List (String × String)) : ℕ :=
  (log.filter (fun e => e.2 == "PAUSED\n")).length

/-- A concrete configuration with the four keys the code reads. -/
def demoCfg : CfgMap := [("UNT", 2), ("DTM", 0), ("24H", 1), ("TMZ", 0)]

/-- A concrete valid fix (quality 3, speed 10 m/s). -/
def demoFix : Fix :=
  { mode := 3, lat := 1, lon := 2, speed := 10, month := 1, day := 2,
    hour := 3, minute := 4, localName := "2021-01-02_03:04:05_track_path" }

deriving instance DecidableEq for Except

/-- Concrete run for claim C1: press Track during a GPS outage (the
flag `wastracking` stays false), regain the fix while tracking, lose
it again (valid→invalid while tracking), then regain it. -/
def c1Trace : List CycleIn :=
  [ mkIn (some (.frame ⟨some true, none, none⟩)) none 0 0,
    mkIn none (some demoFix) 0 0,
    mkIn none none 0 0,
    mkIn none (some demoFix) 0 0 ]

/-- Concrete run for claim C2: press Track during a GPS outage, stay
disconnected one cycle, then regain the fix. -/
def c2Trace : List CycleIn :=
  [ mkIn (some (.frame ⟨some true, none, none⟩)) none 0 0,
    mkIn none none 0 0,
    mkIn none (some demoFix) 0 0 ]

/-- Concrete run for claim C3: start tracking at t=10 (one coordinate
line is written), pause at t=11, resume at t=11 — a complete paused
interval shorter than the 2-second sampling interval. -/
def c3Trace : List CycleIn :=
  [ mkIn (some (.frame ⟨some true, none, none⟩)) (some demoFix) 10 0,
    mkIn (some (.frame ⟨none, some true, none⟩)) (some demoFix) 11 0,
    mkIn (some (.frame ⟨none, some true, none⟩)) (some demoFix) 11 0 ]

/-- Concrete run for claim C4: press Track with REQ=1 (ack sent), then
release the button in a frame without REQ, then press again. -/
def c4Trace : List CycleIn :=
  [ mkIn (some (.frame ⟨some true, some false, some 1⟩)) (some demoFix) 0 0,
    mkIn (some (.frame ⟨some false, none, none⟩)) (some demoFix) 0 0,
    mkIn (some (.frame ⟨some true, none, none⟩)) (some demoFix) 0 0 ]

/-- A concrete state that is tracking with the resume-pending flag
set, as produced by a normal tracking start with a valid fix. -/
def c1wSt : St :=
  { initSt with tracking := 2, wastracking := true, fileName := "F0",
                files := ["F0"] }

/-- A concrete state whose last logged message is the paused
sentinel. -/
def c3wSt : St :=
  { initSt with msg := "PAUSED\n" }

/-- The cycle output of `runCycle demoCfg (mkIn none none 0 0) c3wSt`,
spelled out. -/
def c3wOut : CycleOut :=
  { st := { c3wSt with sendLED1 := 2 }, out := .noPayload,
    disp := defaultDisp 2 }

/-- The frame `{"BUTTON1": true, "BUTTON2": false, "REQ": 1}`. -/
def c4wFrame : Frame :=
  { button1 := some true, button2 := some false, req := some 1 }

/-- The cycle output of running `c4wFrame` from the initial state with
no fix, spelled out. -/
def c4wOut : CycleOut :=
  { st := { initSt with tracking := 2, prevbstate1 := true,
                        sendLED0 := 2, sendLED1 := 2, sendB1RCV := true },
    out := .telemetry (List.replicate 6 (-1 : ℚ)) 2 2 true false,
    disp := defaultDisp 2 }

/-- The cycle output of `runCycle demoCfg (mkIn none none 0 0) initSt`,
spelled out. -/
def c10wOut : CycleOut :=
  { st := { initSt with sendLED1 := 2 }, out := .noPayload,
    disp := defaultDisp 2 }

/-- A REQ=0 frame alone, with no fix. -/
def c7wIn : CycleIn := mkIn (some (.frame ⟨none, none, some 0⟩)) none 0 0

/-- The cycle output of `runCycle demoCfg c7wIn initSt`, spelled
out. -/
def c7wOut : CycleOut :=
  { st := { initSt with sendLED1 := 2 },
    out := .config (cfgArd demoCfg), disp := defaultDisp 2 }

/-- The C8 scenario frame with a valid 10 m/s fix, the OLED already
showing 10. -/
def c8wIn : CycleIn :=
  mkIn (some (.frame ⟨some true, some false, some 1⟩)) (some demoFix) 0 10

/-- The cycle output of `runCycle demoCfg c8wIn initSt`, spelled
out. -/
def c8wOut : CycleOut :=
  { st := { initSt with
              tracking := 2, wastracking := true,
              prevbstate1 := true, fileName := demoFix.localName,
              sendGPS := [1, 2, 10, 1, 2, 3, 4], sendLED0 := 2,
              sendLED1 := 0, sendB1RCV := true,
              files := [demoFix.localName] },
    out := .telemetry [1, 2, 10, 1, 2, 3, 4] 2 0 true false,
    disp := { speed := 10, unit := 2, dt := .localized 1 2 3 4,
              mode := .num 3, track := "" } }

/-- The state of `c1wSt` after one no-line cycle with no fix. -/
def c1wOut1 : CycleOut :=
  { st := { initSt with
              tracking := 0, wastracking := true,
              fileName := "F0", files := ["F0"], sendLED1 := 2 },
    out := .noPayload, disp := defaultDisp 2 }

/-- The state of `c1wOut1.st` after one no-line cycle with a valid
fix: tracking resumed, same file. -/
def c1wOut2 : CycleOut :=
  { st := { initSt with
              tracking := 2, wastracking := true,
              fileName := "F0", files := ["F0"],
              sendGPS := [1, 2, 0, 1, 2, 3, 4], sendLED0 := 2,
              sendLED1 := 0 },
    out := .noPayload,
    disp := { speed := 10, unit := 2, dt := .localized 1 2 3 4,
              mode := .num 3, track := "T" } }

/-- The initial state after one cycle that presses Track during a GPS
outage: tracking for display purposes, but no resume flag and no
file. -/
def c2wOut1 : CycleOut :=
  { st := { initSt with tracking := 2, sendLED0 := 2, sendLED1 := 2 },
    out := .noPayload, disp := defaultDisp 2 }

/-- State `c2wOut1.st` after one more no-line cycle with no fix: forced back
to stopped. -/
def c2wOut2 : CycleOut :=
  { st := { initSt with sendLED1 := 2 }, out := .noPayload,
    disp := defaultDisp 2 }

/-- State `c2wOut2.st` after a no-line cycle with a valid fix: still
stopped — tracking does not resume. -/
def c2wOut3 : CycleOut :=
  { st := { initSt with sendGPS := [1, 2, 0, 1, 2, 3, 4] },
    out := .noPayload,
    disp := { speed := 10, unit := 2, dt := .localized 1 2 3 4,
              mode := .num 3, track := "" } }

/-! ## Helper lemmas -/

theorem data_append (s t : String) : (s ++ t).data = s.data ++ t.data := by
  cases s; cases t; rfl

/-- A coordinate line always contains a comma, so it is never the
paused sentinel. -/
theorem coordLine_ne_paused (a b : ℚ) : coordLine a b ≠ "PAUSED\n" := by
  intro h
  have hm : (',' : Char) ∈ (coordLine a b).data := by
    unfold coordLine
    simp [data_append]
  rw [h] at hm
  revert hm
  decide

/-- The glyph list lookup succeeds on every in-range tracking value. -/
theorem trackGlyph_of_lt {n : ℕ} (h : n < 3) : ∃ g, trackGlyph n = some g := by
  interval_cases n <;> exact ⟨_, rfl⟩

/-- The function `conv_unit` succeeds on every in-range unit code. -/
theorem conv_unit_of_range (v : ℚ) {u : ℤ} (h0 : 0 ≤ u) (h3 : u < 3) :
    ∃ z, conv_unit v u = some z := by
  unfold conv_unit
  rw [if_pos ⟨h0, h3⟩]
  exact ⟨_, rfl⟩

/-- Case analysis of one `tracker` call: either it changes nothing of
`msg`/`log`, or it appends exactly one line — the new `msg` — and a
`"PAUSED\n"` line is only appended from tracking state 1 with a
previous message that does not already read as paused. -/
theorem tracker_log (now : ℤ) (a b : ℚ) (s : St) :
    ((tracker now a b s).log = s.log ∧ (tracker now a b s).msg = s.msg) ∨
    ((tracker now a b s).log =
        s.log ++ [(s.fileName, (tracker now a b s).msg)] ∧
      ((tracker now a b s).msg = "PAUSED\n" →
        s.tracking = 1 ∧ msgIsPaused s.msg = false)) := by
  unfold tracker
  split
  · exact Or.inl ⟨rfl, rfl⟩
  · rename_i hguard
    right
    refine ⟨rfl, ?_⟩
    intro hp
    by_cases ht : s.tracking = 1
    · refine ⟨ht, ?_⟩
      by_cases hmp : msgIsPaused s.msg
      · exact absurd (Or.inr (Or.inl ⟨ht, hmp⟩)) hguard
      · simpa using hmp
    · exfalso
      apply coordLine_ne_paused a b
      simpa [ht] using hp

/-- The function `tracker` only touches `prevTimeEpoch`, `msg` and `log`. -/
theorem tracker_frame (now : ℤ) (a b : ℚ) (s : St) :
    (tracker now a b s).tracking = s.tracking ∧
    (tracker now a b s).wastracking = s.wastracking ∧
    (tracker now a b s).prevbstate1 = s.prevbstate1 ∧
    (tracker now a b s).prevbstate2 = s.prevbstate2 ∧
    (tracker now a b s).fileName = s.fileName ∧
    (tracker now a b s).sendGPS = s.sendGPS ∧
    (tracker now a b s).sendLED0 = s.sendLED0 ∧
    (tracker now a b s).sendLED1 = s.sendLED1 ∧
    (tracker now a b s).sendB1RCV = s.sendB1RCV ∧
    (tracker now a b s).sendB2RCV = s.sendB2RCV ∧
    (tracker now a b s).files = s.files := by
  unfold tracker
  split
  · exact ⟨rfl, rfl, rfl, rfl, rfl, rfl, rfl, rfl, rfl, rfl, rfl⟩
  · exact ⟨rfl, rfl, rfl, rfl, rfl, rfl, rfl, rfl, rfl, rfl, rfl⟩

/-- Decomposition of a successful loop iteration into its step
equations. -/
theorem runCycle_ok_decomp {cfg : CfgMap} {i : CycleIn} {s : St}
    {o : CycleOut} (h : runCycle cfg i s = .ok o) :
    ∃ u rcv s1 s2 s3 s5 s6 out,
      lookupCfg cfg "UNT" = some u ∧
      parseLine i.line = .ok rcv ∧
      fixStep u i.fix i.oled s = .ok (s1, o.disp) ∧
      button1StepR rcv i.fix s1 = .ok s2 ∧
      button2StepR rcv s2 = .ok s3 ∧
      trackerStep i.now i.fix (ledStep s3) = .ok s5 ∧
      reqStepR cfg rcv s5 = .ok (s6, out) ∧
      o.st = persistPrev s6 ∧ o.out = out ∧ s6.tracking < 3 := by
  unfold runCycle at h
  split at h
  · exact Except.noConfusion h
  rename_i u hu
  split at h
  · exact Except.noConfusion h
  rename_i rcv hrcv
  split at h
  · exact Except.noConfusion h
  rename_i p s1 disp hfix
  split at h
  · exact Except.noConfusion h
  rename_i s2 hb1
  split at h
  · exact Except.noConfusion h
  rename_i s3 hb2
  split at h
  · exact Except.noConfusion h
  rename_i s5 htr
  split at h
  · exact Except.noConfusion h
  rename_i q s6 out hreq
  split at h
  · rename_i hlt
    injection h with h
    subst h
    exact ⟨u, rcv, s1, s2, s3, s5, s6, out, hu, hrcv, hfix, hb1, hb2,
           htr, hreq, rfl, rfl, hlt⟩
  · exact Except.noConfusion h

/-- Reduction of the wrapper steps on a JSON object. -/
theorem button1StepR_obj (f : Frame) (fx : Option Fix) (s : St) :
    button1StepR (.obj f) fx s = button1Step f fx s := rfl

/-- Reduction of the Pause/Resume wrapper on a JSON object. -/
theorem button2StepR_obj (f : Frame) (s : St) :
    button2StepR (.obj f) s = .ok (button2Step f s) := rfl

/-- Reduction of the REQ-dispatch wrapper on a JSON object. -/
theorem reqStepR_obj (cfg : CfgMap) (f : Frame) (s : St) :
    reqStepR cfg (.obj f) s = reqStep cfg f s := rfl

/-- Step `fixStep` only touches `tracking`, `sendGPS` and `sendLED1`. -/
theorem fixStep_frame {u : ℤ} {fx : Option Fix} {oled : ℚ} {s s1 : St}
    {d : Disp} (h : fixStep u fx oled s = .ok (s1, d)) :
    s1.wastracking = s.wastracking ∧ s1.prevbstate1 = s.prevbstate1 ∧
    s1.prevbstate2 = s.prevbstate2 ∧ s1.prevTimeEpoch = s.prevTimeEpoch ∧
    s1.fileName = s.fileName ∧ s1.msg = s.msg ∧
    s1.sendB1RCV = s.sendB1RCV ∧ s1.sendB2RCV = s.sendB2RCV ∧
    s1.files = s.files ∧ s1.log = s.log := by
  unfold fixStep at h
  split at h
  · simp only [Except.ok.injEq, Prod.mk.injEq] at h
    obtain ⟨h1, -⟩ := h
    subst h1
    exact ⟨rfl, rfl, rfl, rfl, rfl, rfl, rfl, rfl, rfl, rfl⟩
  · split at h
    · simp only [Except.ok.injEq, Prod.mk.injEq] at h
      obtain ⟨h1, -⟩ := h
      subst h1
      exact ⟨rfl, rfl, rfl, rfl, rfl, rfl, rfl, rfl, rfl, rfl⟩
    · split at h
      · exact Except.noConfusion h
      · split at h
        · exact Except.noConfusion h
        · simp only [Except.ok.injEq, Prod.mk.injEq] at h
          obtain ⟨h1, -⟩ := h
          subst h1
          exact ⟨rfl, rfl, rfl, rfl, rfl, rfl, rfl, rfl, rfl, rfl⟩

/-- Step `button1Step` only touches `tracking`, `wastracking`, `fileName`
and `files`. -/
theorem button1Step_frame {rcv : Frame} {fx : Option Fix} {s s2 : St}
    (h : button1Step rcv fx s = .ok s2) :
    s2.prevbstate1 = s.prevbstate1 ∧ s2.prevbstate2 = s.prevbstate2 ∧
    s2.prevTimeEpoch = s.prevTimeEpoch ∧ s2.msg = s.msg ∧
    s2.sendGPS = s.sendGPS ∧ s2.sendLED0 = s.sendLED0 ∧
    s2.sendLED1 = s.sendLED1 ∧ s2.sendB1RCV = s.sendB1RCV ∧
    s2.sendB2RCV = s.sendB2RCV ∧ s2.log = s.log := by
  unfold button1Step at h
  split at h
  · split at h
    · injection h with h
      subst h
      exact ⟨rfl, rfl, rfl, rfl, rfl, rfl, rfl, rfl, rfl, rfl⟩
    · split at h
      · split at h
        · exact Except.noConfusion h
        · injection h with h
          subst h
          exact ⟨rfl, rfl, rfl, rfl, rfl, rfl, rfl, rfl, rfl, rfl⟩
      · injection h with h
        subst h
        exact ⟨rfl, rfl, rfl, rfl, rfl, rfl, rfl, rfl, rfl, rfl⟩
  · injection h with h
    subst h
    exact ⟨rfl, rfl, rfl, rfl, rfl, rfl, rfl, rfl, rfl, rfl⟩

/-- Step `button2Step` only touches `tracking`. -/
theorem button2Step_frame (rcv : Frame) (s : St) :
    (button2Step rcv s).wastracking = s.wastracking ∧
    (button2Step rcv s).prevbstate1 = s.prevbstate1 ∧
    (button2Step rcv s).prevbstate2 = s.prevbstate2 ∧
    (button2Step rcv s).prevTimeEpoch = s.prevTimeEpoch ∧
    (button2Step rcv s).fileName = s.fileName ∧
    (button2Step rcv s).msg = s.msg ∧
    (button2Step rcv s).sendGPS = s.sendGPS ∧
    (button2Step rcv s).sendLED1 = s.sendLED1 ∧
    (button2Step rcv s).sendB1RCV = s.sendB1RCV ∧
    (button2Step rcv s).sendB2RCV = s.sendB2RCV ∧
    (button2Step rcv s).files = s.files ∧
    (button2Step rcv s).log = s.log := by
  unfold button2Step
  split
  · exact ⟨rfl, rfl, rfl, rfl, rfl, rfl, rfl, rfl, rfl, rfl, rfl, rfl⟩
  · exact ⟨rfl, rfl, rfl, rfl, rfl, rfl, rfl, rfl, rfl, rfl, rfl, rfl⟩

/-- Step `trackerStep` only touches `prevTimeEpoch`, `msg` and `log`
(through `tracker`). -/
theorem trackerStep_frame {now : ℤ} {fx : Option Fix} {s s5 : St}
    (h : trackerStep now fx s = .ok s5) :
    s5.tracking = s.tracking ∧ s5.wastracking = s.wastracking ∧
    s5.prevbstate1 = s.prevbstate1 ∧ s5.prevbstate2 = s.prevbstate2 ∧
    s5.fileName = s.fileName ∧ s5.sendGPS = s.sendGPS ∧
    s5.sendLED0 = s.sendLED0 ∧ s5.sendLED1 = s.sendLED1 ∧
    s5.sendB1RCV = s.sendB1RCV ∧ s5.sendB2RCV = s.sendB2RCV ∧
    s5.files = s.files := by
  unfold trackerStep at h
  split at h
  · split at h
    · exact Except.noConfusion h
    · rename_i g
      injection h with h
      subst h
      exact tracker_frame now g.lat g.lon s
  · injection h with h
    subst h
    exact ⟨rfl, rfl, rfl, rfl, rfl, rfl, rfl, rfl, rfl, rfl, rfl⟩

/-- The `msg`/`log` part of `trackerStep`: either untouched, or
exactly what one `tracker` call produces. -/
theorem trackerStep_msg_log {now : ℤ} {fx : Option Fix} {s s5 : St}
    (h : trackerStep now fx s = .ok s5) :
    (s5.msg = s.msg ∧ s5.log = s.log) ∨
    ∃ a b, s5 = tracker now a b s := by
  unfold trackerStep at h
  split at h
  · split at h
    · exact Except.noConfusion h
    · rename_i g
      injection h with h
      exact Or.inr ⟨g.lat, g.lon, h.symm⟩
  · injection h with h
    subst h
    exact Or.inl ⟨rfl, rfl⟩

/-- Step `reqStep` only touches `sendB1RCV` and `sendB2RCV`, and only on a
REQ=1 frame, where they take the raw inbound button values. -/
theorem reqStep_frame {cfg : CfgMap} {rcv : Frame} {s s6 : St} {out : Out}
    (h : reqStep cfg rcv s = .ok (s6, out)) :
    s6.tracking = s.tracking ∧ s6.wastracking = s.wastracking ∧
    s6.prevbstate1 = s.prevbstate1 ∧ s6.prevbstate2 = s.prevbstate2 ∧
    s6.prevTimeEpoch = s.prevTimeEpoch ∧ s6.fileName = s.fileName ∧
    s6.msg = s.msg ∧ s6.sendGPS = s.sendGPS ∧ s6.sendLED0 = s.sendLED0 ∧
    s6.sendLED1 = s.sendLED1 ∧ s6.files = s.files ∧ s6.log = s.log ∧
    (rcv.req = some 1 →
      rcv.button1 = some s6.sendB1RCV ∧ rcv.button2 = some s6.sendB2RCV) ∧
    (rcv.req ≠ some 1 →
      s6.sendB1RCV = s.sendB1RCV ∧ s6.sendB2RCV = s.sendB2RCV) := by
  unfold reqStep at h
  split at h
  · rename_i h0
    simp only [Except.ok.injEq, Prod.mk.injEq] at h
    obtain ⟨h1, -⟩ := h
    subst h1
    refine ⟨rfl, rfl, rfl, rfl, rfl, rfl, rfl, rfl, rfl, rfl, rfl, rfl, ?_, ?_⟩
    · intro h1r
      rw [h0] at h1r
      exact absurd (Option.some.inj h1r) (by norm_num)
    · intro _
      exact ⟨rfl, rfl⟩
  · split at h
    · rename_i h0 h1r
      split at h
      · rename_i b1 b2 hb1 hb2
        simp only [Except.ok.injEq, Prod.mk.injEq] at h
        obtain ⟨h1, -⟩ := h
        subst h1
        exact ⟨rfl, rfl, rfl, rfl, rfl, rfl, rfl, rfl, rfl, rfl, rfl, rfl,
               fun _ => ⟨hb1, hb2⟩, fun hne => absurd h1r hne⟩
      · exact Except.noConfusion h
    · rename_i h0 h1r
      simp only [Except.ok.injEq, Prod.mk.injEq] at h
      obtain ⟨h1, -⟩ := h
      subst h1
      exact ⟨rfl, rfl, rfl, rfl, rfl, rfl, rfl, rfl, rfl, rfl, rfl, rfl,
             fun hr => absurd hr h1r, fun _ => ⟨rfl, rfl⟩⟩

/-- Step `button1StepR` only touches `tracking`, `wastracking`,
`fileName` and `files`, for every kind of `rcv` value. -/
theorem button1StepR_frame {rcv : Rcv} {fx : Option Fix} {s s2 : St}
    (h : button1StepR rcv fx s = .ok s2) :
    s2.prevbstate1 = s.prevbstate1 ∧ s2.prevbstate2 = s.prevbstate2 ∧
    s2.prevTimeEpoch = s.prevTimeEpoch ∧ s2.msg = s.msg ∧
    s2.sendGPS = s.sendGPS ∧ s2.sendLED0 = s.sendLED0 ∧
    s2.sendLED1 = s.sendLED1 ∧ s2.sendB1RCV = s.sendB1RCV ∧
    s2.sendB2RCV = s.sendB2RCV ∧ s2.log = s.log := by
  unfold button1StepR at h
  split at h
  · rename_i f
    exact button1Step_frame h
  · split at h
    · exact Except.noConfusion h
    · injection h with h
      subst h
      exact ⟨rfl, rfl, rfl, rfl, rfl, rfl, rfl, rfl, rfl, rfl⟩

/-- Step `button2StepR` only touches `tracking`, for every kind of
`rcv` value. -/
theorem button2StepR_frame {rcv : Rcv} {s s3 : St}
    (h : button2StepR rcv s = .ok s3) :
    s3.wastracking = s.wastracking ∧ s3.prevbstate1 = s.prevbstate1 ∧
    s3.prevbstate2 = s.prevbstate2 ∧ s3.prevTimeEpoch = s.prevTimeEpoch ∧
    s3.fileName = s.fileName ∧ s3.msg = s.msg ∧
    s3.sendGPS = s.sendGPS ∧ s3.sendLED1 = s.sendLED1 ∧
    s3.sendB1RCV = s.sendB1RCV ∧ s3.sendB2RCV = s.sendB2RCV ∧
    s3.files = s.files ∧ s3.log = s.log := by
  unfold button2StepR at h
  split at h
  · rename_i f
    injection h with h
    subst h
    exact button2Step_frame f s
  · split at h
    · exact Except.noConfusion h
    · injection h with h
      subst h
      exact ⟨rfl, rfl, rfl, rfl, rfl, rfl, rfl, rfl, rfl, rfl, rfl, rfl⟩

/-- Step `reqStepR` only touches `sendB1RCV` and `sendB2RCV`, for
every kind of `rcv` value. -/
theorem reqStepR_frame {cfg : CfgMap} {rcv : Rcv} {s s6 : St} {out : Out}
    (h : reqStepR cfg rcv s = .ok (s6, out)) :
    s6.tracking = s.tracking ∧ s6.wastracking = s.wastracking ∧
    s6.prevbstate1 = s.prevbstate1 ∧ s6.prevbstate2 = s.prevbstate2 ∧
    s6.prevTimeEpoch = s.prevTimeEpoch ∧ s6.fileName = s.fileName ∧
    s6.msg = s.msg ∧ s6.sendGPS = s.sendGPS ∧ s6.sendLED0 = s.sendLED0 ∧
    s6.sendLED1 = s.sendLED1 ∧ s6.files = s.files ∧ s6.log = s.log := by
  unfold reqStepR at h
  split at h
  · rename_i f
    obtain ⟨h1, h2, h3, h4, h5, h6, h7, h8, h9, h10, h11, h12, -, -⟩ :=
      reqStep_frame h
    exact ⟨h1, h2, h3, h4, h5, h6, h7, h8, h9, h10, h11, h12⟩
  · split at h
    · exact Except.noConfusion h
    · simp only [Except.ok.injEq, Prod.mk.injEq] at h
      obtain ⟨h1, -⟩ := h
      subst h1
      exact ⟨rfl, rfl, rfl, rfl, rfl, rfl, rfl, rfl, rfl, rfl, rfl, rfl⟩

/-! ## C9: unit conversion -/

/-- C9: for speeds s ≥ 0 and unit codes 0 (MPH), 1 (KMH), 2 (MPS),
`conv_unit` computes `⌊s * factor u⌋` with factor 2.237 / 3.6 / 1, and
is monotone in the speed for a fixed unit. -/
theorem c9_thm (s s' : ℚ) (u : ℤ) (h0 : 0 ≤ s) (hss : s ≤ s')
    (hu0 : 0 ≤ u) (hu3 : u < 3) :
    conv_unit s u = some ⌊s * factor u⌋ ∧
    ⌊s * factor u⌋ ≤ ⌊s' * factor u⌋ := by
  have hf0 : 0 ≤ factor u := by
    unfold factor
    split_ifs <;> norm_num
  constructor
  · unfold conv_unit factor
    rw [if_pos ⟨hu0, hu3⟩]
    split_ifs with h1 h2
    · have hnn : 0 ≤ s * (2.237 : ℚ) := mul_nonneg h0 (by norm_num)
      rw [div_one]
      unfold pyInt
      rw [if_pos hnn]
    · have hnn : 0 ≤ s * (3.6 : ℚ) := mul_nonneg h0 (by norm_num)
      rw [div_one]
      unfold pyInt
      rw [if_pos hnn]
    · simp [pyInt, h0]
  · exact Int.floor_mono (mul_le_mul_of_nonneg_right hss hf0)

/-- Witness: C9 at s = 3.5 m/s, s' = 4 m/s, unit KMH. -/
theorem c9_witness :
    conv_unit 3.5 1 = some ⌊(3.5 : ℚ) * factor 1⌋ ∧
    ⌊(3.5 : ℚ) * factor 1⌋ ≤ ⌊(4 : ℚ) * factor 1⌋ :=
  c9_thm 3.5 4 1 (by norm_num) (by norm_num) (by norm_num) (by norm_num)

/-! ## C10: default display on an invalid fix -/

/-- C10: on every cycle with an invalid fix (no report or fix-quality
mode < 2), the display state published for the renderer is exactly the
default snapshot (speed 0, unit from the configuration, epoch
datetime, mode glyph D, empty track glyph), for every incoming state
and frame. -/
theorem c10_thm (cfg : CfgMap) (u : ℤ) (i : CycleIn) (s : St)
    (o : CycleOut) (hu : lookupCfg cfg "UNT" = some u)
    (hinv : fixInvalid i.fix = true)
    (hrun : runCycle cfg i s = .ok o) :
    o.disp = defaultDisp u := by
  obtain ⟨u', rcv, s1, s2, s3, s5, s6, out, hu', hrcv, hfix, -⟩ :=
    runCycle_ok_decomp hrun
  rw [hu] at hu'
  injection hu' with hu'
  subst hu'
  cases hfx : i.fix with
  | none =>
    rw [hfx] at hfix
    unfold fixStep at hfix
    simp only [Except.ok.injEq, Prod.mk.injEq] at hfix
    exact hfix.2.symm
  | some g =>
    rw [hfx] at hinv hfix
    unfold fixInvalid at hinv
    simp only [decide_eq_true_eq] at hinv
    simp only [fixStep] at hfix
    rw [if_pos hinv] at hfix
    simp only [Except.ok.injEq, Prod.mk.injEq] at hfix
    exact hfix.2.symm

/-- Witness: C10 on a cycle with no fix from the initial state. -/
theorem c10_witness : c10wOut.disp = defaultDisp 2 :=
  c10_thm demoCfg 2 (mkIn none none 0 0) initSt c10wOut (by decide)
    (by decide) (by decide)

/-! ## C3: the paused sentinel -/

/-- Counterexample to C3 as stated: a contiguous paused interval in
which the sentinel is appended zero times, not exactly once.  The run
`c3Trace` starts tracking (one coordinate line is logged at t=10),
is paused during its second cycle, and resumes in the third (both at
t=11, within the 2-second sampling interval), ending with no
`"PAUSED\n"` line in the log at all. -/
theorem c3_cex :
    (runAll demoCfg (c3Trace.take 2) initSt).map St.tracking = some 1 ∧
    (runAll demoCfg c3Trace initSt).map
        (fun t => (t.tracking, countPaused t.log)) = some (2, 0) := by
  decide

/-- C3 (amended): per cycle the track log grows by at most one line —
which always equals the post-cycle `msg` — and from a state whose
`msg` already reads as paused (as it does right after the sentinel is
written), no cycle ever appends another `"PAUSED\n"` line; hence the
sentinel is written at most once (possibly zero times) per contiguous
paused interval. -/
theorem c3_thm (cfg : CfgMap) (i : CycleIn) (s : St) (o : CycleOut)
    (hrun : runCycle cfg i s = .ok o) :
    (o.st.log = s.log ∨
      o.st.log = s.log ++ [(o.st.fileName, o.st.msg)]) ∧
    (msgIsPaused s.msg = true →
      o.st.log = s.log ∨
      (o.st.log = s.log ++ [(o.st.fileName, o.st.msg)] ∧
        o.st.msg ≠ "PAUSED\n")) := by
  obtain ⟨u, rcv, s1, s2, s3, s5, s6, out, hu, hrcv, hfix, hb1, hb2,
          htr, hreq, host, -, -⟩ := runCycle_ok_decomp hrun
  obtain ⟨-, -, -, -, hfn1, hmsg1, -, -, -, hlog1⟩ := fixStep_frame hfix
  obtain ⟨-, -, -, hmsg2, -, -, -, -, -, hlog2⟩ := button1StepR_frame hb1
  obtain ⟨-, -, -, -, hfnB2, hmsgB2, -, -, -, -, -, hlogB2⟩ :=
    button2StepR_frame hb2
  obtain ⟨-, -, -, -, hfn5, -, -, -, -, -, -⟩ := trackerStep_frame htr
  obtain ⟨-, -, -, -, -, hfn6, hmsg6, -, -, -, -, hlog6⟩ :=
    reqStepR_frame hreq
  have hS4msg : (ledStep s3).msg = s.msg := by
    simp only [ledStep]
    rw [hmsgB2, hmsg2, hmsg1]
  have hS4log : (ledStep s3).log = s.log := by
    simp only [ledStep]
    rw [hlogB2, hlog2, hlog1]
  have hoLog : o.st.log = s6.log := by rw [host]; rfl
  have hoMsg : o.st.msg = s6.msg := by rw [host]; rfl
  have hoFn : o.st.fileName = s6.fileName := by rw [host]; rfl
  rcases trackerStep_msg_log htr with ⟨hm0, hl0⟩ | ⟨a, b, rfl⟩
  · have hlog : o.st.log = s.log := by
      rw [hoLog, hlog6, hl0, hS4log]
    exact ⟨Or.inl hlog, fun _ => Or.inl hlog⟩
  · simp only [ledStep] at hfn5
    rcases tracker_log i.now a b (ledStep s3) with ⟨hl, hm⟩ | ⟨hl, himp⟩
    · have hlog : o.st.log = s.log := by
        rw [hoLog, hlog6, hl, hS4log]
      exact ⟨Or.inl hlog, fun _ => Or.inl hlog⟩
    · have hlog : o.st.log = s.log ++ [(o.st.fileName, o.st.msg)] := by
        rw [hoLog, hlog6, hl, hS4log, hoFn, hfn6, hoMsg, hmsg6]
        simp only [ledStep] at hfn5 ⊢
        rw [hfn5]
      refine ⟨Or.inr hlog, fun hp => Or.inr ⟨hlog, ?_⟩⟩
      intro hPm
      have hPm5 : (tracker i.now a b (ledStep s3)).msg = "PAUSED\n" := by
        rw [← hmsg6, ← hoMsg, hPm]
      obtain ⟨-, hmp⟩ := himp hPm5
      rw [hS4msg, hp] at hmp
      exact Bool.noConfusion hmp

/-- Witness: C3 (amended) on a cycle with no fix from a state whose
last message is the paused sentinel. -/
theorem c3_witness :
    (c3wOut.st.log = c3wSt.log ∨
      c3wOut.st.log = c3wSt.log ++ [(c3wOut.st.fileName, c3wOut.st.msg)]) ∧
    (c3wOut.st.log = c3wSt.log ∨
      (c3wOut.st.log = c3wSt.log ++ [(c3wOut.st.fileName, c3wOut.st.msg)] ∧
        c3wOut.st.msg ≠ "PAUSED\n")) := by
  have h := c3_thm demoCfg (mkIn none none 0 0) c3wSt c3wOut (by decide)
  exact ⟨h.1, h.2 (by decide)⟩

/-! ## C4: button edges and previous-state persistence -/

/-- Counterexample to C4 as stated: the persisted previous button
state is not the raw inbound state.  In `c4Trace`, the second frame
carries `BUTTON1: false` with no REQ, yet the persisted previous state
remains true (it mirrors the stale `B1RCV` acknowledgement), and the
genuine rising edge of the third frame is consequently missed: the
state stays Tracking instead of stopping. -/
theorem c4_cex :
    (runAll demoCfg (c4Trace.take 2) initSt).map St.prevbstate1
      = some true ∧
    (runAll demoCfg c4Trace initSt).map St.tracking = some 2 := by
  decide

/-- C4 (amended): each button edge is computed as pressed-now AND
not-pressed-before against the stored previous state, but what is
persisted at the end of the cycle is the pair of acknowledgement
fields `B1RCV`/`B2RCV`; these equal the current raw inbound button
values only on frames carrying REQ=1, and on all other frames keep
their old (possibly stale) values. -/
theorem c4_thm (cfg : CfgMap) (i : CycleIn) (s : St) (o : CycleOut)
    (f : Frame) (hL : i.line = some (.frame f))
    (hrun : runCycle cfg i s = .ok o) :
    (o.st.prevbstate1 = o.st.sendB1RCV ∧
     o.st.prevbstate2 = o.st.sendB2RCV) ∧
    (f.req = some 1 →
      f.button1 = some o.st.sendB1RCV ∧
      f.button2 = some o.st.sendB2RCV) ∧
    (f.req ≠ some 1 →
      o.st.sendB1RCV = s.sendB1RCV ∧ o.st.sendB2RCV = s.sendB2RCV) := by
  obtain ⟨u, rcv, s1, s2, s3, s5, s6, out, hu, hrcv, hfix, hb1, hb2,
          htr, hreq, host, -, -⟩ := runCycle_ok_decomp hrun
  rw [hL] at hrcv
  have hrf : rcv = .obj f := by
    simpa [parseLine] using hrcv.symm
  subst hrf
  rw [button1StepR_obj] at hb1
  rw [button2StepR_obj] at hb2
  injection hb2 with hb2
  subst hb2
  rw [reqStepR_obj] at hreq
  obtain ⟨-, -, -, -, -, -, hB11, hB21, -, -⟩ := fixStep_frame hfix
  obtain ⟨-, -, -, -, -, -, -, hB12, hB22, -⟩ := button1Step_frame hb1
  obtain ⟨-, -, -, -, -, -, -, -, hB1B2, hB2B2, -, -⟩ :=
    button2Step_frame f s2
  obtain ⟨-, -, -, -, -, -, -, -, hB15, hB25, -⟩ := trackerStep_frame htr
  obtain ⟨-, -, -, -, -, -, -, -, -, -, -, -, hreq1, hreqne⟩ :=
    reqStep_frame hreq
  simp only [ledStep] at hB15 hB25
  refine ⟨⟨by rw [host]; rfl, by rw [host]; rfl⟩, ?_, ?_⟩
  · intro hr
    obtain ⟨hb1', hb2'⟩ := hreq1 hr
    constructor
    · rw [host]
      exact hb1'
    · rw [host]
      exact hb2'
  · intro hr
    obtain ⟨hbv1, hbv2⟩ := hreqne hr
    constructor
    · rw [host]
      show s6.sendB1RCV = s.sendB1RCV
      rw [hbv1, hB15, hB1B2, hB12, hB11]
    · rw [host]
      show s6.sendB2RCV = s.sendB2RCV
      rw [hbv2, hB25, hB2B2, hB22, hB21]

/-- Witness: C4 (amended) on a REQ=1 frame pressing the Track button
from the initial state with no fix. -/
theorem c4_witness :
    (c4wOut.st.prevbstate1 = c4wOut.st.sendB1RCV ∧
     c4wOut.st.prevbstate2 = c4wOut.st.sendB2RCV) ∧
    c4wFrame.button1 = some c4wOut.st.sendB1RCV ∧
    c4wFrame.button2 = some c4wOut.st.sendB2RCV := by
  have h := c4_thm demoCfg (mkIn (some (.frame c4wFrame)) none 0 0)
    initSt c4wOut c4wFrame rfl (by decide)
  exact ⟨h.1, h.2.1 rfl⟩

/-! ## C5: malformed and empty inbound lines -/

/-- Counterexample to C5 as stated: a malformed inbound line (anything
`json.loads` rejects) is not skipped — the loop raises a JSON decode
error. -/
theorem c5_cex :
    runCycle demoCfg (mkIn (some .malformed) none 0 0) initSt
      = .error .jsonError := by
  decide

/-- C5 (amended): an inbound line equal to the exact `b"\r\n"` empty
line is skipped, the cycle proceeding exactly as if no line had
arrived, and so is a line that `json.loads` accepts as a JSON
non-object on which every key consultation is a negative membership
test (such as `b"[]"` or an unrelated JSON string); a line that
`json.loads` rejects — including every other empty or malformed line —
raises a JSON decode error that aborts the loop, and a line parsing to
a JSON non-object on which some key consultation raises (such as a
bare number, boolean or null, or a container holding one of the key
names) aborts the loop with a `TypeError`; neither of the latter two
is skipped. -/
theorem c5_thm (cfg : CfgMap) (u : ℤ) (i : CycleIn) (s : St)
    (r1 r2 r3 : Bool)
    (hu : lookupCfg cfg "UNT" = some u) (hu0 : 0 ≤ u) (hu3 : u < 3)
    (htr : s.tracking < 3) :
    (i.line = some .crlf →
      runCycle cfg i s = runCycle cfg (mkIn none i.fix i.now i.oled) s) ∧
    (i.line = some .malformed →
      runCycle cfg i s = .error .jsonError) ∧
    (i.line = some (.nonObj false false false) →
      runCycle cfg i s = runCycle cfg (mkIn none i.fix i.now i.oled) s) ∧
    (i.line = some (.nonObj r1 r2 r3) → (r1 || r2 || r3) = true →
      runCycle cfg i s = .error .typeError) := by
  obtain ⟨l, fx, now, ol⟩ := i
  refine ⟨?_, ?_, ?_, ?_⟩
  · intro hl
    change l = some .crlf at hl
    subst hl
    rfl
  · intro hl
    change l = some .malformed at hl
    subst hl
    unfold runCycle
    rw [hu]
    rfl
  · intro hl
    change l = some (.nonObj false false false) at hl
    subst hl
    rfl
  · intro hl hor
    change l = some (.nonObj r1 r2 r3) at hl
    subst hl
    rcases fx with _ | g
    · unfold runCycle
      rw [hu]
      cases r1 <;> cases r2 <;> cases r3
      · simp at hor
      all_goals rfl
    · by_cases hm : g.mode < 2
      · unfold runCycle
        rw [hu]
        simp only [parseLine, fixStep]
        rw [if_pos hm]
        cases r1 <;> cases r2 <;> cases r3
        · simp at hor
        all_goals rfl
      · obtain ⟨z, hz⟩ := conv_unit_of_range ol hu0 hu3
        have htr2 : (fixValidBase s).tracking < 3 := by
          unfold fixValidBase
          simp only
          split
          · norm_num
          · exact htr
        obtain ⟨gl, hgl⟩ := trackGlyph_of_lt htr2
        unfold runCycle
        rw [hu]
        simp only [parseLine, fixStep]
        rw [if_neg hm, hz, hgl]
        cases r1 <;> cases r2 <;> cases r3
        · simp at hor
        all_goals rfl

/-- Witness: C5 (amended) on a CRLF-only line, on a malformed line, on
a benign JSON non-object line (all three consultations negative, as
for `b"[]"`), and on a raising JSON non-object line (all three
consultations raising, as for `b"5"`). -/
theorem c5_witness :
    runCycle demoCfg (mkIn (some .crlf) none 0 0) initSt
      = runCycle demoCfg (mkIn none none 0 0) initSt ∧
    runCycle demoCfg (mkIn (some .malformed) (some demoFix) 5 1) initSt
      = .error .jsonError ∧
    runCycle demoCfg
        (mkIn (some (.nonObj false false false)) (some demoFix) 5 1)
        initSt
      = runCycle demoCfg (mkIn none (some demoFix) 5 1) initSt ∧
    runCycle demoCfg (mkIn (some (.nonObj true true true)) none 0 0)
        initSt
      = .error .typeError := by
  refine ⟨?_, ?_, ?_, ?_⟩
  · exact (c5_thm demoCfg 2 (mkIn (some .crlf) none 0 0) initSt
      false false false (by decide) (by decide) (by decide)
      (by decide)).1 rfl
  · exact (c5_thm demoCfg 2 (mkIn (some .malformed) (some demoFix) 5 1)
      initSt false false false (by decide) (by decide) (by decide)
      (by decide)).2.1 rfl
  · exact (c5_thm demoCfg 2
      (mkIn (some (.nonObj false false false)) (some demoFix) 5 1)
      initSt false false false (by decide) (by decide) (by decide)
      (by decide)).2.2.1 rfl
  · exact (c5_thm demoCfg 2
      (mkIn (some (.nonObj true true true)) none 0 0) initSt
      true true true (by decide) (by decide) (by decide)
      (by decide)).2.2.2 rfl rfl

/-! ## C6: absent inbound fields -/

/-- Counterexample to C6 as stated: the frame `{"REQ": 1}` alone is
not processed with the buttons defaulting to false — the
acknowledgement computation reads `BUTTON1` unconditionally and the
cycle raises a `KeyError`. -/
theorem c6_cex :
    runCycle demoCfg (mkIn (some (.frame ⟨none, none, some 1⟩)) none 0 0)
        initSt = .error .keyError := by
  decide

/-- C6 (amended): for the edge computation and the REQ dispatch,
absent `BUTTON1`/`BUTTON2`/`REQ` fields do default to false/none — a
frame with all three absent behaves exactly like one carrying
`BUTTON1: false, BUTTON2: false` — but when a frame carries REQ=1 the
acknowledgement computation reads both button keys unconditionally,
so `{"REQ": 1}` without them raises a `KeyError`. -/
theorem c6_thm (cfg : CfgMap) (u : ℤ) (i : CycleIn) (s : St)
    (hu : lookupCfg cfg "UNT" = some u) (hu0 : 0 ≤ u) (hu3 : u < 3)
    (htr : s.tracking < 3) :
    (i.line = some (.frame ⟨none, none, none⟩) →
      runCycle cfg i s
        = runCycle cfg
            (mkIn (some (.frame ⟨some false, some false, none⟩))
              i.fix i.now i.oled) s) ∧
    (i.line = some (.frame ⟨none, none, some 1⟩) →
      runCycle cfg i s = .error .keyError) := by
  obtain ⟨l, fx, now, ol⟩ := i
  constructor
  · intro hl
    change l = some (.frame ⟨none, none, none⟩) at hl
    subst hl
    rfl
  · intro hl
    change l = some (.frame ⟨none, none, some 1⟩) at hl
    subst hl
    rcases fx with _ | g
    · unfold runCycle
      rw [hu]
      rfl
    · by_cases hm : g.mode < 2
      · unfold runCycle
        rw [hu]
        simp only [parseLine, fixStep]
        rw [if_pos hm]
        rfl
      · obtain ⟨z, hz⟩ := conv_unit_of_range ol hu0 hu3
        have htr2 : (fixValidBase s).tracking < 3 := by
          unfold fixValidBase
          simp only
          split
          · norm_num
          · exact htr
        obtain ⟨gl, hgl⟩ := trackGlyph_of_lt htr2
        unfold runCycle
        rw [hu]
        simp only [parseLine, fixStep]
        rw [if_neg hm, hz, hgl]
        rfl

/-- Witness: C6 (amended) on an all-absent frame and on a REQ=1-only
frame with a valid fix. -/
theorem c6_witness :
    runCycle demoCfg (mkIn (some (.frame ⟨none, none, none⟩)) none 0 0)
        initSt
      = runCycle demoCfg
          (mkIn (some (.frame ⟨some false, some false, none⟩)) none 0 0)
          initSt ∧
    runCycle demoCfg
        (mkIn (some (.frame ⟨none, none, some 1⟩)) (some demoFix) 0 0)
        initSt = .error .keyError := by
  constructor
  · exact (c6_thm demoCfg 2
      (mkIn (some (.frame ⟨none, none, none⟩)) none 0 0) initSt
      (by decide) (by decide) (by decide) (by decide)).1 rfl
  · exact (c6_thm demoCfg 2
      (mkIn (some (.frame ⟨none, none, some 1⟩)) (some demoFix) 0 0)
      initSt (by decide) (by decide) (by decide) (by decide)).2 rfl

/-! ## Step equations used by the remaining claims -/

theorem fixStep_none_eq (u : ℤ) (oled : ℚ) (s : St) :
    fixStep u none oled s = .ok (stInvalid s, defaultDisp u) := rfl

/-- Successful `fixStep` on a valid fix, analysed. -/
theorem fixStep_ok_valid {u : ℤ} {g : Fix} {oled : ℚ} {s s1 : St}
    {d : Disp} (hm : ¬ g.mode < 2)
    (h : fixStep u (some g) oled s = .ok (s1, d)) :
    ∃ sp gl, conv_unit oled u = some sp ∧
      trackGlyph (fixValidBase s).tracking = some gl ∧
      s1 = { fixValidBase s with
              sendGPS := [g.lat, g.lon, (sp : ℚ), (g.month : ℚ),
                          (g.day : ℚ), (g.hour : ℚ), (g.minute : ℚ)] } ∧
      d = { speed := g.speed, unit := u,
            dt := .localized g.month g.day g.hour g.minute,
            mode := .num g.mode, track := gl } := by
  simp only [fixStep] at h
  rw [if_neg hm] at h
  split at h
  · exact Except.noConfusion h
  · rename_i sp hsp
    split at h
    · exact Except.noConfusion h
    · rename_i gl hgl
      simp only [Except.ok.injEq, Prod.mk.injEq] at h
      exact ⟨sp, gl, hsp, hgl, h.1.symm, h.2.symm⟩

theorem button1Step_none_eq (b2 : Option Bool) (rq : Option ℤ)
    (fx : Option Fix) (s : St) :
    button1Step ⟨none, b2, rq⟩ fx s = .ok s := by
  unfold button1Step
  simp

/-- A Track rising edge from stopped with the fault LED off: start
tracking, set the resume flag and derive a new file. -/
theorem button1Step_start {rcv : Frame} {g : Fix} {s : St}
    (hb : rcv.button1 = some true) (hp : s.prevbstate1 = false)
    (ht : ¬(s.tracking = 1 ∨ s.tracking = 2)) (hl : s.sendLED1 = 0) :
    button1Step rcv (some g) s = .ok
      { s with tracking := 2, wastracking := true,
               fileName := g.localName,
               files := s.files ++ [g.localName] } := by
  unfold button1Step
  rw [if_pos ⟨hb, hp⟩, if_neg ht, if_pos hl]

/-- A Track rising edge from stopped with the fault LED on: start
tracking but set no flag and create no file. -/
theorem button1Step_start_nofix {rcv : Frame} {fx : Option Fix} {s : St}
    (hb : rcv.button1 = some true) (hp : s.prevbstate1 = false)
    (ht : ¬(s.tracking = 1 ∨ s.tracking = 2)) (hl : s.sendLED1 ≠ 0) :
    button1Step rcv fx s = .ok { s with tracking := 2 } := by
  unfold button1Step
  rw [if_pos ⟨hb, hp⟩, if_neg ht, if_neg hl]

theorem button2Step_none_eq (b1 : Option Bool) (rq : Option ℤ) (s : St) :
    button2Step ⟨b1, none, rq⟩ s = s := by
  unfold button2Step
  simp

theorem button2Step_false_eq (b1 : Option Bool) (rq : Option ℤ) (s : St) :
    button2Step ⟨b1, some false, rq⟩ s = s := by
  unfold button2Step
  simp

theorem trackerStep_led0_eq {now : ℤ} {g : Fix} {s : St}
    (h : s.sendLED1 = 0) :
    trackerStep now (some g) s = .ok (tracker now g.lat g.lon s) := by
  unfold trackerStep
  rw [if_pos h]

theorem trackerStep_skip_eq {now : ℤ} {fx : Option Fix} {s : St}
    (h : s.sendLED1 ≠ 0) :
    trackerStep now fx s = .ok s := by
  unfold trackerStep
  rw [if_neg h]

theorem reqStep_req0_eq {cfg : CfgMap} {rcv : Frame} {s : St}
    (h : rcv.req = some 0) :
    reqStep cfg rcv s = .ok (s, .config (cfgArd cfg)) := by
  unfold reqStep
  rw [if_pos h]

theorem reqStep_req1_eq {cfg : CfgMap} {rcv : Frame} {s : St}
    {b1 b2 : Bool} (h : rcv.req = some 1) (hb1 : rcv.button1 = some b1)
    (hb2 : rcv.button2 = some b2) :
    reqStep cfg rcv s = .ok
      ({ s with sendB1RCV := b1, sendB2RCV := b2 },
       .telemetry s.sendGPS s.sendLED0 s.sendLED1 b1 b2) := by
  unfold reqStep
  rw [if_neg (by rw [h]; decide), if_pos h, hb1, hb2]

theorem reqStep_none_eq {cfg : CfgMap} {rcv : Frame} {s : St}
    (h0 : rcv.req ≠ some 0) (h1 : rcv.req ≠ some 1) :
    reqStep cfg rcv s = .ok (s, .noPayload) := by
  unfold reqStep
  rw [if_neg h0, if_neg h1]

/-- Deleting `24H`/`TMZ` leaves every other key's binding intact. -/
theorem lookupCfg_cfgArd (cfg : CfgMap) (k : String)
    (h24 : k ≠ "24H") (htm : k ≠ "TMZ") :
    lookupCfg (cfgArd cfg) k = lookupCfg cfg k := by
  induction cfg with
  | nil => rfl
  | cons kv rest ih =>
    obtain ⟨k1, v1⟩ := kv
    by_cases h1 : k1 = "24H"
    · subst h1
      have hk : (k == "24H") = false := by simp [h24]
      simp only [cfgArd, lookupCfg, List.lookup, List.filter] at ih ⊢
      simp only [hk]
      simpa using ih
    · by_cases h2 : k1 = "TMZ"
      · subst h2
        have hk : (k == "TMZ") = false := by simp [htm]
        simp only [cfgArd, lookupCfg, List.lookup, List.filter] at ih ⊢
        simp only [hk]
        simpa using ih
      · have hp : (!(k1 == "24H" || k1 == "TMZ")) = true := by
          simp [h1, h2]
        simp only [cfgArd, lookupCfg, List.lookup, List.filter] at ih ⊢
        simp only [hp]
        by_cases hk : k = k1
        · simp [hk, List.lookup]
        · have hkb : (k == k1) = false := by simp [hk]
          simp only [List.lookup, hkb]
          simpa using ih

/-- The deleted keys are absent from the Arduino payload. -/
theorem lookupCfg_cfgArd_del (cfg : CfgMap) (k : String)
    (hk : k = "24H" ∨ k = "TMZ") :
    lookupCfg (cfgArd cfg) k = none := by
  induction cfg with
  | nil => rfl
  | cons kv rest ih =>
    obtain ⟨k1, v1⟩ := kv
    by_cases hp : (!(k1 == "24H" || k1 == "TMZ")) = true
    · have hne : (k == k1) = false := by
        simp only [Bool.not_eq_true', Bool.or_eq_false_iff] at hp
        obtain ⟨hpa, hpb⟩ := hp
        rcases hk with rfl | rfl
        · simp only [beq_eq_false_iff_ne, ne_eq] at hpa ⊢
          exact fun hc => hpa hc.symm
        · simp only [beq_eq_false_iff_ne, ne_eq] at hpb ⊢
          exact fun hc => hpb hc.symm
      simp only [cfgArd, lookupCfg, List.lookup, List.filter] at ih ⊢
      simp only [hp, List.lookup, hne]
      simpa using ih
    · have hp' : (!(k1 == "24H" || k1 == "TMZ")) = false := by
        simpa using hp
      simp only [cfgArd, lookupCfg, List.lookup, List.filter] at ih ⊢
      simp only [hp']
      simpa using ih

theorem tracker_tracking (now : ℤ) (a b : ℚ) (s : St) :
    (tracker now a b s).tracking = s.tracking :=
  (tracker_frame now a b s).1

theorem tracker_wastracking (now : ℤ) (a b : ℚ) (s : St) :
    (tracker now a b s).wastracking = s.wastracking :=
  (tracker_frame now a b s).2.1

theorem tracker_fileName_eq (now : ℤ) (a b : ℚ) (s : St) :
    (tracker now a b s).fileName = s.fileName :=
  (tracker_frame now a b s).2.2.2.2.1

theorem tracker_sendGPS (now : ℤ) (a b : ℚ) (s : St) :
    (tracker now a b s).sendGPS = s.sendGPS :=
  (tracker_frame now a b s).2.2.2.2.2.1

theorem tracker_sendLED0 (now : ℤ) (a b : ℚ) (s : St) :
    (tracker now a b s).sendLED0 = s.sendLED0 :=
  (tracker_frame now a b s).2.2.2.2.2.2.1

theorem tracker_sendLED1 (now : ℤ) (a b : ℚ) (s : St) :
    (tracker now a b s).sendLED1 = s.sendLED1 :=
  (tracker_frame now a b s).2.2.2.2.2.2.2.1

theorem tracker_files_eq (now : ℤ) (a b : ℚ) (s : St) :
    (tracker now a b s).files = s.files :=
  (tracker_frame now a b s).2.2.2.2.2.2.2.2.2.2

/-! ## C7: the REQ=0 configuration payload -/

/-- Counterexample to C7 as stated: the REQ=0 payload still contains
the display unit (`UNT`, here 2) and the date format (`DTM`) — only
the 12/24-hour flag and the timezone are removed. -/
theorem c7_cex :
    (runCycle demoCfg (mkIn (some (.frame ⟨none, none, some 0⟩)) none 0 0)
        initSt).toOption.map CycleOut.out
      = some (.config [("UNT", 2), ("DTM", 0)]) ∧
    lookupCfg [(("UNT" : String), (2 : ℤ)), ("DTM", 0)] "UNT" = some 2 := by
  decide

/-- C7 (amended): on a REQ=0 frame the outbound payload is the stored
configuration with exactly the 12/24-hour flag (`24H`) and the
timezone (`TMZ`) removed; the display unit (`UNT`) and date format
(`DTM`) bindings are retained unchanged, and the payload is the same
for every incoming state (in particular for every tracking state). -/
theorem c7_thm (cfg : CfgMap) (i : CycleIn) (s : St) (o : CycleOut)
    (f : Frame) (hL : i.line = some (.frame f)) (hrq : f.req = some 0)
    (hrun : runCycle cfg i s = .ok o) :
    o.out = .config (cfgArd cfg) ∧
    lookupCfg (cfgArd cfg) "24H" = none ∧
    lookupCfg (cfgArd cfg) "TMZ" = none ∧
    lookupCfg (cfgArd cfg) "UNT" = lookupCfg cfg "UNT" ∧
    lookupCfg (cfgArd cfg) "DTM" = lookupCfg cfg "DTM" := by
  obtain ⟨u, rcv, s1, s2, s3, s5, s6, out, hu, hrcv, hfix, hb1, hb2,
          htr, hreq, host, hout, -⟩ := runCycle_ok_decomp hrun
  rw [hL] at hrcv
  have hrf : rcv = .obj f := by
    simpa [parseLine] using hrcv.symm
  subst hrf
  rw [reqStepR_obj] at hreq
  have e : reqStep cfg f s5 = .ok (s5, .config (cfgArd cfg)) :=
    reqStep_req0_eq hrq
  have h' := hreq.symm.trans e
  simp only [Except.ok.injEq, Prod.mk.injEq] at h'
  refine ⟨?_, lookupCfg_cfgArd_del cfg "24H" (Or.inl rfl),
          lookupCfg_cfgArd_del cfg "TMZ" (Or.inr rfl),
          lookupCfg_cfgArd cfg "UNT" (by decide) (by decide),
          lookupCfg_cfgArd cfg "DTM" (by decide) (by decide)⟩
  rw [hout, h'.2]

/-- Witness: C7 (amended) on a concrete REQ=0 cycle. -/
theorem c7_witness :
    c7wOut.out = .config (cfgArd demoCfg) ∧
    lookupCfg (cfgArd demoCfg) "24H" = none ∧
    lookupCfg (cfgArd demoCfg) "TMZ" = none ∧
    lookupCfg (cfgArd demoCfg) "UNT" = lookupCfg demoCfg "UNT" ∧
    lookupCfg (cfgArd demoCfg) "DTM" = lookupCfg demoCfg "DTM" :=
  c7_thm demoCfg c7wIn initSt c7wOut ⟨none, none, some 0⟩ rfl rfl
    (by decide)

/-! ## C8: the Track-press telemetry scenario -/

/-- Counterexample to C8 as stated: with a valid fix at 10 m/s and the
scenario frame, the telemetry GPS speed element is the converted
OLED-displayed speed (here 0), not the fix speed 10 — even though the
new log file is created. -/
theorem c8_cex :
    (runCycle demoCfg
        (mkIn (some (.frame ⟨some true, some false, some 1⟩))
          (some demoFix) 0 0) initSt).toOption.map
        (fun o => (o.out, o.st.files))
      = some (.telemetry [1, 2, 0, 1, 2, 3, 4] 2 0 true false,
              [demoFix.localName]) ∧
    demoFix.speed = 10 := by
  decide

/-- C8 (amended): on a Track rising edge from stopped (no resume flag
pending) with a valid fix, a frame carrying BUTTON1=true,
BUTTON2=false and REQ=1 yields a telemetry payload whose GPS speed
element is the unit-converted OLED-displayed speed (`oled_speed`, not
the instantaneous fix speed; they agree when the display has caught
up), whose LED pair is exactly [2, 0], with both button acks mirrored,
and a new log file is created. -/
theorem c8_thm (cfg : CfgMap) (i : CycleIn) (s : St) (o : CycleOut)
    (g : Fix) (hu : lookupCfg cfg "UNT" = some 2)
    (hL : i.line = some (.frame ⟨some true, some false, some 1⟩))
    (hF : i.fix = some g) (hm : ¬ g.mode < 2)
    (ht0 : s.tracking = 0) (hw : s.wastracking = false)
    (hp1 : s.prevbstate1 = false)
    (hrun : runCycle cfg i s = .ok o) :
    o.out = .telemetry
        [g.lat, g.lon, (pyInt i.oled : ℚ), (g.month : ℚ), (g.day : ℚ),
         (g.hour : ℚ), (g.minute : ℚ)] 2 0 true false ∧
    o.st.files = s.files ++ [g.localName] := by
  obtain ⟨u, rcv, s1, s2, s3, s5, s6, out, hu', hrcv, hfix, hb1, hb2,
          htr, hreq, host, hout, -⟩ := runCycle_ok_decomp hrun
  rw [hu] at hu'
  injection hu' with hu'
  subst hu'
  rw [hL] at hrcv
  have hrf : rcv = .obj ⟨some true, some false, some 1⟩ := by
    simpa [parseLine] using hrcv.symm
  subst hrf
  rw [button1StepR_obj] at hb1
  rw [button2StepR_obj] at hb2
  injection hb2 with hb2
  subst hb2
  rw [reqStepR_obj] at hreq
  rw [hF] at hfix hb1 htr
  obtain ⟨sp, gl, hsp, hgl, hs1, -⟩ := fixStep_ok_valid hm hfix
  have hsp' : sp = pyInt i.oled := by
    have h0 : conv_unit i.oled 2 = some (pyInt i.oled) := rfl
    exact (Option.some.inj (h0.symm.trans hsp)).symm
  subst hsp'
  subst hs1
  have hXtr : ({ fixValidBase s with
      sendGPS := [g.lat, g.lon, (pyInt i.oled : ℚ), (g.month : ℚ),
                  (g.day : ℚ), (g.hour : ℚ), (g.minute : ℚ)] } : St).tracking
      = 0 := by
    show (fixValidBase s).tracking = 0
    unfold fixValidBase
    simp [hw, ht0]
  have h2 := hb1.symm.trans
    (button1Step_start rfl hp1 (by rw [hXtr]; decide) rfl)
  injection h2 with h2
  subst h2
  rw [button2Step_false_eq] at htr
  have h4 := htr.symm.trans (trackerStep_led0_eq rfl)
  injection h4 with h4
  subst h4
  have h5 := hreq.symm.trans (reqStep_req1_eq rfl rfl rfl)
  simp only [Except.ok.injEq, Prod.mk.injEq] at h5
  obtain ⟨hs6, hout'⟩ := h5
  subst hs6
  constructor
  · rw [hout, hout', tracker_sendGPS, tracker_sendLED0, tracker_sendLED1]
    rfl
  · rw [host]
    simp only [persistPrev]
    rw [tracker_files_eq]
    rfl

/-- Witness: C8 (amended) with the OLED showing 10 m/s. -/
theorem c8_witness :
    c8wOut.out = .telemetry
        [demoFix.lat, demoFix.lon, (pyInt (10 : ℚ) : ℚ),
         (demoFix.month : ℚ), (demoFix.day : ℚ), (demoFix.hour : ℚ),
         (demoFix.minute : ℚ)] 2 0 true false ∧
    c8wOut.st.files = initSt.files ++ [demoFix.localName] :=
  c8_thm demoCfg c8wIn initSt c8wOut demoFix (by decide) rfl rfl
    (by decide) rfl rfl rfl (by decide)

/-! ## Shared cycle analyses for C1 and C2 -/

/-- A cycle with no inbound line and no fix: the state is the
invalid-fix default with the green LED and previous-button fields
refreshed; nothing else changes. -/
theorem runCycle_noline_nofix {cfg : CfgMap} {i : CycleIn} {s : St}
    {o : CycleOut} (hiL : i.line = none) (hiF : i.fix = none)
    (h : runCycle cfg i s = .ok o) :
    o.st = persistPrev (ledStep (stInvalid s)) := by
  obtain ⟨u, rcv, s1, s2, s3, s5, s6, out, hu, hrcv, hfix, hb1, hb2,
          htr, hreq, host, -, -⟩ := runCycle_ok_decomp h
  rw [hiL] at hrcv
  have hrf : rcv = .obj ⟨none, none, none⟩ := by
    simpa [parseLine] using hrcv.symm
  subst hrf
  rw [button1StepR_obj] at hb1
  rw [button2StepR_obj] at hb2
  injection hb2 with hb2
  subst hb2
  rw [reqStepR_obj] at hreq
  rw [hiF] at hfix hb1 htr
  have hf := hfix.symm.trans (fixStep_none_eq u i.oled s)
  simp only [Except.ok.injEq, Prod.mk.injEq] at hf
  obtain ⟨hf1, -⟩ := hf
  subst hf1
  have hb := hb1.symm.trans (button1Step_none_eq none none none _)
  injection hb with hb
  subst hb
  rw [button2Step_none_eq] at htr
  have htr' := htr.symm.trans
    (trackerStep_skip_eq (by simp [ledStep, stInvalid]))
  injection htr' with htr'
  subst htr'
  have hr := hreq.symm.trans (reqStep_none_eq (by decide) (by decide))
  simp only [Except.ok.injEq, Prod.mk.injEq] at hr
  obtain ⟨hr1, -⟩ := hr
  subst hr1
  exact host

/-- A cycle with no inbound line and a valid fix: the state is the
valid-fix update followed by one `tracker` call. -/
theorem runCycle_noline_valid {cfg : CfgMap} {j : CycleIn} {s : St}
    {o : CycleOut} {g : Fix} (hjL : j.line = none)
    (hjF : j.fix = some g) (hm : ¬ g.mode < 2)
    (h : runCycle cfg j s = .ok o) :
    ∃ sp, o.st = persistPrev (tracker j.now g.lat g.lon (ledStep
      { fixValidBase s with
          sendGPS := [g.lat, g.lon, (sp : ℚ), (g.month : ℚ),
                      (g.day : ℚ), (g.hour : ℚ), (g.minute : ℚ)] })) := by
  obtain ⟨u, rcv, s1, s2, s3, s5, s6, out, hu, hrcv, hfix, hb1, hb2,
          htr, hreq, host, -, -⟩ := runCycle_ok_decomp h
  rw [hjL] at hrcv
  have hrf : rcv = .obj ⟨none, none, none⟩ := by
    simpa [parseLine] using hrcv.symm
  subst hrf
  rw [button1StepR_obj] at hb1
  rw [button2StepR_obj] at hb2
  injection hb2 with hb2
  subst hb2
  rw [reqStepR_obj] at hreq
  rw [hjF] at hfix hb1 htr
  obtain ⟨sp, gl, hsp, hgl, hs1, -⟩ := fixStep_ok_valid hm hfix
  subst hs1
  refine ⟨sp, ?_⟩
  have hb := hb1.symm.trans (button1Step_none_eq none none (some g) _)
  injection hb with hb
  subst hb
  rw [button2Step_none_eq] at htr
  have htr' := htr.symm.trans (trackerStep_led0_eq rfl)
  injection htr' with htr'
  subst htr'
  have hr := hreq.symm.trans (reqStep_none_eq (by decide) (by decide))
  simp only [Except.ok.injEq, Prod.mk.injEq] at hr
  obtain ⟨hr1, -⟩ := hr
  subst hr1
  exact host

/-! ## C1: fix loss while tracking -/

/-- Counterexample to C1 as stated: there is a reachable situation
(Track pressed while the fix was invalid, then the fix recovers) in
which the fix dropping valid→invalid while tracking forces Stopped and
retains the resume-pending flag — but the flag is false, so when fix
validity returns the state does not re-enter Tracking.  After
`c1Trace` (press during outage, fix valid, fix lost, fix back) the
state is Stopped with no resume flag. -/
theorem c1_cex :
    (runAll demoCfg (c1Trace.take 2) initSt).map St.tracking = some 2 ∧
    (runAll demoCfg c1Trace initSt).map
      (fun t => (t.tracking, t.wastracking, t.files))
      = some (0, false, []) := by
  decide

/-- C1 (amended): if the fix drops valid→invalid while the state is
not Stopped and the resume-pending flag (`wastracking`) is set — as it
is whenever tracking was started with a valid fix — the state is
forced to Stopped with the flag retained and the track file untouched,
and on the next valid-fix cycle the state silently re-enters Tracking
with the same file and no new file created. -/
theorem c1_thm (cfg : CfgMap) (s : St) (i j : CycleIn)
    (o1 o2 : CycleOut) (g : Fix)
    (ht : s.tracking = 1 ∨ s.tracking = 2) (hw : s.wastracking = true)
    (hiL : i.line = none) (hiF : i.fix = none)
    (hjL : j.line = none) (hjF : j.fix = some g) (hjm : ¬ g.mode < 2)
    (h1 : runCycle cfg i s = .ok o1)
    (h2 : runCycle cfg j o1.st = .ok o2) :
    (o1.st.tracking = 0 ∧ o1.st.wastracking = true ∧
     o1.st.fileName = s.fileName ∧ o1.st.files = s.files) ∧
    (o2.st.tracking = 2 ∧ o2.st.fileName = s.fileName ∧
     o2.st.files = s.files) := by
  have ho1 := runCycle_noline_nofix hiL hiF h1
  have k1 : o1.st.tracking = 0 := by rw [ho1]; rfl
  have k2 : o1.st.wastracking = true := by rw [ho1]; exact hw
  have k3 : o1.st.fileName = s.fileName := by rw [ho1]; rfl
  have k4 : o1.st.files = s.files := by rw [ho1]; rfl
  obtain ⟨sp, ho2⟩ := runCycle_noline_valid hjL hjF hjm h2
  have m1 : o2.st.tracking = 2 := by
    rw [ho2]
    simp only [persistPrev]
    rw [tracker_tracking]
    show (fixValidBase o1.st).tracking = 2
    unfold fixValidBase
    simp [k1, k2]
  have m2 : o2.st.fileName = s.fileName := by
    rw [ho2]
    simp only [persistPrev]
    rw [tracker_fileName_eq]
    exact k3
  have m3 : o2.st.files = s.files := by
    rw [ho2]
    simp only [persistPrev]
    rw [tracker_files_eq]
    exact k4
  exact ⟨⟨k1, k2, k3, k4⟩, m1, m2, m3⟩

/-- Witness: C1 (amended) from a tracking state with the resume flag
set, over a fix-loss cycle followed by a fix-recovery cycle. -/
theorem c1_witness :
    (c1wOut1.st.tracking = 0 ∧ c1wOut1.st.wastracking = true ∧
     c1wOut1.st.fileName = c1wSt.fileName ∧
     c1wOut1.st.files = c1wSt.files) ∧
    (c1wOut2.st.tracking = 2 ∧ c1wOut2.st.fileName = c1wSt.fileName ∧
     c1wOut2.st.files = c1wSt.files) :=
  c1_thm demoCfg c1wSt (mkIn none none 0 0) (mkIn none (some demoFix) 0 0)
    c1wOut1 c1wOut2 demoFix (Or.inr rfl) rfl rfl rfl rfl rfl
    (by decide) (by decide) (by decide)

/-! ## C2: Track press while the fix is invalid -/

/-- Counterexample to C2 as stated: a Track rising edge while Stopped
with an invalid fix transitions to Tracking for that cycle but does
NOT set the resume-pending flag (and creates no file); on the next
invalid cycle the state falls back to Stopped, and when the fix
becomes valid the state stays Stopped — it does not silently re-enter
Tracking. -/
theorem c2_cex :
    (runAll demoCfg (c2Trace.take 1) initSt).map
      (fun t => (t.tracking, t.wastracking, t.files))
      = some (2, false, []) ∧
    (runAll demoCfg c2Trace initSt).map
      (fun t => (t.tracking, t.wastracking, t.files))
      = some (0, false, []) := by
  decide

/-- C2 (amended): on a Track rising edge while Stopped with an invalid
fix, the state still transitions to Tracking for that cycle and file
creation is skipped, but the resume-pending flag is NOT set; on the
next invalid-fix cycle the state is forced back to Stopped, and when
the fix becomes valid again the state remains Stopped (no silent
re-entry) with no file ever created for that press. -/
theorem c2_thm (cfg : CfgMap) (s : St) (i1 i2 i3 : CycleIn)
    (o1 o2 o3 : CycleOut) (g : Fix)
    (ht : s.tracking = 0) (hw : s.wastracking = false)
    (hp1 : s.prevbstate1 = false)
    (h1L : i1.line = some (.frame ⟨some true, none, none⟩))
    (h1F : i1.fix = none)
    (h2L : i2.line = none) (h2F : i2.fix = none)
    (h3L : i3.line = none) (h3F : i3.fix = some g) (h3m : ¬ g.mode < 2)
    (h1 : runCycle cfg i1 s = .ok o1)
    (h2 : runCycle cfg i2 o1.st = .ok o2)
    (h3 : runCycle cfg i3 o2.st = .ok o3) :
    (o1.st.tracking = 2 ∧ o1.st.wastracking = false ∧
     o1.st.files = s.files ∧ o1.st.fileName = s.fileName) ∧
    o2.st.tracking = 0 ∧
    (o3.st.tracking = 0 ∧ o3.st.files = s.files) := by
  obtain ⟨u, rcv, s1, s2, s3, s5, s6, out, hu, hrcv, hfix, hb1, hb2,
          htr, hreq, host1, -, -⟩ := runCycle_ok_decomp h1
  rw [h1L] at hrcv
  have hrf : rcv = .obj ⟨some true, none, none⟩ := by
    simpa [parseLine] using hrcv.symm
  subst hrf
  rw [button1StepR_obj] at hb1
  rw [button2StepR_obj] at hb2
  injection hb2 with hb2
  subst hb2
  rw [reqStepR_obj] at hreq
  rw [h1F] at hfix hb1 htr
  have hf := hfix.symm.trans (fixStep_none_eq u i1.oled s)
  simp only [Except.ok.injEq, Prod.mk.injEq] at hf
  obtain ⟨hf1, -⟩ := hf
  subst hf1
  have hb := hb1.symm.trans
    (button1Step_start_nofix rfl hp1 (by simp [stInvalid])
      (by simp [stInvalid]))
  injection hb with hb
  subst hb
  rw [button2Step_none_eq] at htr
  have htr' := htr.symm.trans
    (trackerStep_skip_eq (by simp [ledStep, stInvalid]))
  injection htr' with htr'
  subst htr'
  have hr := hreq.symm.trans (reqStep_none_eq (by decide) (by decide))
  simp only [Except.ok.injEq, Prod.mk.injEq] at hr
  obtain ⟨hr1, -⟩ := hr
  subst hr1
  have k1 : o1.st.tracking = 2 := by rw [host1]; rfl
  have k2 : o1.st.wastracking = false := by rw [host1]; exact hw
  have k3 : o1.st.files = s.files := by rw [host1]; rfl
  have k4 : o1.st.fileName = s.fileName := by rw [host1]; rfl
  have ho2 := runCycle_noline_nofix h2L h2F h2
  have m1 : o2.st.tracking = 0 := by rw [ho2]; rfl
  have m2 : o2.st.wastracking = false := by rw [ho2]; exact k2
  have m3 : o2.st.files = s.files := by rw [ho2]; exact k3
  obtain ⟨sp, ho3⟩ := runCycle_noline_valid h3L h3F h3m h3
  have n1 : o3.st.tracking = 0 := by
    rw [ho3]
    simp only [persistPrev]
    rw [tracker_tracking]
    show (fixValidBase o2.st).tracking = 0
    unfold fixValidBase
    simp [m1, m2]
  have n2 : o3.st.files = s.files := by
    rw [ho3]
    simp only [persistPrev]
    rw [tracker_files_eq]
    exact m3
  exact ⟨⟨k1, k2, k3, k4⟩, m1, n1, n2⟩

/-- Witness: C2 (amended) from the initial state over press-in-outage,
still-in-outage and fix-recovery cycles. -/
theorem c2_witness :
    (c2wOut1.st.tracking = 2 ∧ c2wOut1.st.wastracking = false ∧
     c2wOut1.st.files = initSt.files ∧
     c2wOut1.st.fileName = initSt.fileName) ∧
    c2wOut2.st.tracking = 0 ∧
    (c2wOut3.st.tracking = 0 ∧ c2wOut3.st.files = initSt.files) :=
  c2_thm demoCfg initSt
    (mkIn (some (.frame ⟨some true, none, none⟩)) none 0 0)
    (mkIn none none 0 0) (mkIn none (some demoFix) 0 0)
    c2wOut1 c2wOut2 c2wOut3 demoFix rfl rfl rfl rfl rfl rfl rfl rfl rfl
    (by decide) (by decide) (by decide) (by decide)

end BikeMode
